import Mathlib

/- Verification development for the MPEG-4 part 2 video bitstream decoder
(libavcodec/mpeg4videodec.c).  The C functions relevant to the checked
properties are shallowly embedded as executable Lean definitions: machine
integers become `Int`/`Nat` (the code's own overflow guards are modelled
explicitly where they matter), bit readers become explicit `List Bool`
consumption, and fallible parsing returns `Except Int`.  Note that in this
source tree the macro `IS_3IV1` expands to the constant `0` (its real
definition is compiled out), so all `if (IS_3IV1)` branches are dead code
and are embedded as such. -/

namespace Mpeg4

/- Error codes (libavutil/error.h FFERRTAG values).  Only their sign matters
for the properties below. -/
def AVERROR_INVALIDDATA : Int := -1094995529

def AVERROR_PATCHWELCOME : Int := -1163346256

/- C picture types, AV_PICTURE_TYPE_I/P/B/S. -/
inductive PictType
  | I
  | P
  | B
  | S
deriving DecidableEq, Repr

/-! ### DC prediction (`mpeg4_pred_dc`) -/

/- Inputs of `mpeg4_pred_dc`: the three neighbour DC values read from the
flat `dc_val` array (`dc_val[-1]`, `dc_val[-1-wrap]`, `dc_val[-wrap]`),
the block index `n`, and the slice-position state consulted by the
boundary handling. -/
structure DCPredCtx where
  dcA : Int
  dcB : Int
  dcC : Int
  n : Nat
  first_slice_line : Bool
  mb_x : Nat
  mb_y : Nat
  resync_mb_x : Nat
  resync_mb_y : Nat
deriving DecidableEq, Repr

/- The neighbour values a, b, c after the outside-slice handling of
`mpeg4_pred_dc` (unavailable neighbours forced to the sentinel 1024). -/
def mpeg4_pred_dc_neighbors (s : DCPredCtx) : Int × Int × Int :=
  let a := s.dcA
  let b := s.dcB
  let c := s.dcC
  let b := if s.first_slice_line ∧ s.n ≠ 3 ∧ s.n ≠ 2 then 1024 else b
  let c := if s.first_slice_line ∧ s.n ≠ 3 ∧ s.n ≠ 2 then 1024 else c
  let b := if s.first_slice_line ∧ s.n ≠ 3 ∧ s.n ≠ 1 ∧ s.mb_x = s.resync_mb_x then 1024 else b
  let a := if s.first_slice_line ∧ s.n ≠ 3 ∧ s.n ≠ 1 ∧ s.mb_x = s.resync_mb_x then 1024 else a
  let b := if s.mb_x = s.resync_mb_x ∧ s.mb_y = s.resync_mb_y + 1 ∧
              (s.n = 0 ∨ s.n = 4 ∨ s.n = 5) then 1024 else b
  (a, b, c)

/- `mpeg4_pred_dc`: returns the predictor and the prediction direction
(1 = top, i.e. predict from c; 0 = left, i.e. predict from a). -/
def mpeg4_pred_dc (s : DCPredCtx) : Int × Nat :=
  let abc := mpeg4_pred_dc_neighbors s
  let a := abc.1
  let b := abc.2.1
  let c := abc.2.2
  if |a - b| < |b - c| then (c, 1) else (a, 0)

/-! ### B-picture VOP timing (`decode_vop_header`, B branch) -/

/- ROUNDED_DIV(a,b) from libavutil/common.h: `((a)>=0 ? (a)+((b)>>1) :
(a)-((b)>>1))/(b)` with C truncating division; `(b)>>1` is an arithmetic
shift, i.e. floor division by 2 (`Int.ediv` by the positive 2). -/
def roundedDiv (a b : Int) : Int :=
  (if 0 ≤ a then a + Int.ediv b 2 else a - Int.ediv b 2).tdiv b

def AV_NOPTS_VALUE : Int := -(2 ^ 63)

/- Outcome of the B-picture part of `decode_vop_header`: either the
FRAME_SKIPPED signal (no timestamp is produced, no error is raised), or
the derived timing state together with the presentation timestamp that is
computed further down in the function. -/
inductive BVopTiming
  | skipped
  | timed (time pbTime ppFieldTime pbFieldTime pts : Int)
deriving DecidableEq, Repr

/- The value `s->pb_time` derived for a B picture:
`s->time = (s->last_time_base + time_incr) * framerate.num + time_increment`
and `s->pb_time = s->pp_time - (s->last_non_b_time - s->time)`. -/
def derivedTime (lastTimeBase timeIncr frNum timeIncrement : Int) : Int :=
  (lastTimeBase + timeIncr) * frNum + timeIncrement

def derivedPbTime (lastTimeBase timeIncr frNum timeIncrement ppTime lastNonBTime : Int) : Int :=
  ppTime - (lastNonBTime - derivedTime lastTimeBase timeIncr frNum timeIncrement)

/- The B-picture branch of `decode_vop_header`, from the timing derivation
through the pts computation.  `tFrame0` is the incoming `ctx->t_frame`. -/
def decode_vop_header_btiming (lastTimeBase timeIncr frNum timeIncrement
    ppTime lastNonBTime tFrame0 : Int) (progressive : Bool) (frDen : Int) :
    BVopTiming :=
  let time := derivedTime lastTimeBase timeIncr frNum timeIncrement
  let pbTime := derivedPbTime lastTimeBase timeIncr frNum timeIncrement ppTime lastNonBTime
  if ppTime ≤ pbTime ∨ ppTime ≤ ppTime - pbTime ∨ ppTime ≤ 0 then
    BVopTiming.skipped
  else
    let tFrame := if tFrame0 = 0 then pbTime else tFrame0
    let tFrame := if tFrame = 0 then 1 else tFrame
    let ppFieldTime := (roundedDiv lastNonBTime tFrame -
                        roundedDiv (lastNonBTime - ppTime) tFrame) * 2
    let pbFieldTime := (roundedDiv time tFrame -
                        roundedDiv (lastNonBTime - ppTime) tFrame) * 2
    let pts := if frDen ≠ 0 then roundedDiv time frDen else AV_NOPTS_VALUE
    if ppFieldTime ≤ pbFieldTime ∨ pbFieldTime ≤ 1 then
      if ¬ progressive then BVopTiming.skipped
      else BVopTiming.timed time pbTime 4 2 pts
    else BVopTiming.timed time pbTime ppFieldTime pbFieldTime pts

/-! ### Theorems for claims C1 and C6 -/

/-- C1 counterexample: on a tie `|a-b| == |b-c|` the code takes the else
branch of `mpeg4_pred_dc` and predicts from the LEFT neighbour `a` with
direction 0, not from the top neighbour `c` with direction 1 as the claim
states.  Concretely, with a = 0, b = 1, c = 2 (no boundary overrides
active) the tie holds and the result is (0, 0), not (2, 1). -/
theorem C1_dc_tie_counterexample :
    let s : DCPredCtx :=
      { dcA := 0, dcB := 1, dcC := 2, n := 0, first_slice_line := false,
        mb_x := 1, mb_y := 0, resync_mb_x := 0, resync_mb_y := 5 }
    mpeg4_pred_dc_neighbors s = (0, 1, 2) ∧
    |(0 : Int) - 1| = |(1 : Int) - 2| ∧
    mpeg4_pred_dc s = (0, 0) ∧ mpeg4_pred_dc s ≠ (2, 1) := by
  refine ⟨rfl, rfl, rfl, ?_⟩
  decide

/-- C1 (amended): in `mpeg4_pred_dc`, when `|a-b| < |b-c|` the predictor is
the top value c with direction 1, and when `|a-b| >= |b-c|` — hence in
particular on ties — the predictor is the left value a with direction 0;
moreover for block index 0 of a macroblock at `mb_x == resync_mb_x` on the
first slice line, both effective neighbours a and b read as the sentinel
1024. -/
theorem C1_dc_prediction (s : DCPredCtx) :
    (|(mpeg4_pred_dc_neighbors s).1 - (mpeg4_pred_dc_neighbors s).2.1| <
       |(mpeg4_pred_dc_neighbors s).2.1 - (mpeg4_pred_dc_neighbors s).2.2| →
       mpeg4_pred_dc s = ((mpeg4_pred_dc_neighbors s).2.2, 1)) ∧
    (|(mpeg4_pred_dc_neighbors s).2.1 - (mpeg4_pred_dc_neighbors s).2.2| ≤
       |(mpeg4_pred_dc_neighbors s).1 - (mpeg4_pred_dc_neighbors s).2.1| →
       mpeg4_pred_dc s = ((mpeg4_pred_dc_neighbors s).1, 0)) ∧
    (s.n = 0 → s.first_slice_line = true → s.mb_x = s.resync_mb_x →
       (mpeg4_pred_dc_neighbors s).1 = 1024 ∧ (mpeg4_pred_dc_neighbors s).2.1 = 1024) := by
  refine ⟨?_, ?_, ?_⟩
  · intro h
    unfold mpeg4_pred_dc
    simp only [h, if_pos]
  · intro h
    unfold mpeg4_pred_dc
    rw [if_neg (by omega)]
  · intro hn hfsl hmbx
    unfold mpeg4_pred_dc_neighbors
    simp [hn, hfsl, hmbx]

/-- C1 witness: at a concrete context (block 0, first slice line,
`mb_x = resync_mb_x = 3`) the effective neighbours a and b are both 1024. -/
theorem C1_dc_prediction_witness :
    (mpeg4_pred_dc_neighbors
      { dcA := 7, dcB := 8, dcC := 9, n := 0, first_slice_line := true,
        mb_x := 3, mb_y := 2, resync_mb_x := 3, resync_mb_y := 0 }).1 = 1024 ∧
    (mpeg4_pred_dc_neighbors
      { dcA := 7, dcB := 8, dcC := 9, n := 0, first_slice_line := true,
        mb_x := 3, mb_y := 2, resync_mb_x := 3, resync_mb_y := 0 }).2.1 = 1024 :=
  (C1_dc_prediction _).2.2 rfl rfl rfl

/-- C6: for a B-picture VOP header whose derived timing satisfies
`pp_time <= pb_time`, or `pp_time <= pp_time - pb_time`, or
`pp_time <= 0`, the timing branch of `decode_vop_header` returns the
frame-skipped signal (a result that is neither an error nor a decoded
frame, and that carries no timestamp). -/
theorem C6_bframe_timing_inversion_skips
    (lastTimeBase timeIncr frNum timeIncrement ppTime lastNonBTime tFrame0 frDen : Int)
    (progressive : Bool)
    (h : ppTime ≤ derivedPbTime lastTimeBase timeIncr frNum timeIncrement ppTime lastNonBTime ∨
         ppTime ≤ ppTime - derivedPbTime lastTimeBase timeIncr frNum timeIncrement ppTime lastNonBTime ∨
         ppTime ≤ 0) :
    decode_vop_header_btiming lastTimeBase timeIncr frNum timeIncrement
      ppTime lastNonBTime tFrame0 progressive frDen = BVopTiming.skipped := by
  unfold decode_vop_header_btiming
  rw [if_pos h]

/-- C6 witness: a concrete B frame with `pp_time = 2` and derived
`pb_time = 2` (timing inversion after a seek) is skipped. -/
theorem C6_bframe_timing_inversion_witness :
    decode_vop_header_btiming 0 0 25 2 2 0 0 true 1 = BVopTiming.skipped :=
  C6_bframe_timing_inversion_skips 0 0 25 2 2 0 0 1 true (by decide)

/-! ### Custom quantization matrices (`decode_vol_header`) -/

/- The matrix-load loop of `decode_vol_header`: scan positions are walked in
order; at scan position i the value is stored at `idct_permutation
[ff_zigzag_direct[i]]`, modelled by the composite permutation `perm`.
An 8-bit value of 0 terminates the run; running out of input data before
the terminator is `AVERROR_INVALIDDATA` (modelled as `none`).  The result
of the loop is the updated matrix, the list of scan positions that were
not yet written, and the `last` nonzero value read. -/
def storeRun (perm : Fin 64 → Fin 64) :
    List (Fin 64) → List Nat → Nat → (Fin 64 → Nat) →
    Option ((Fin 64 → Nat) × List (Fin 64) × Nat)
  | [], _, last, mat => some (mat, [], last)
  | _ :: _, [], _, _ => none
  | i :: rest, v :: vs, last, mat =>
    if v = 0 then some (mat, i :: rest, last)
    else storeRun perm rest vs v (Function.update mat (perm i) v)

/- The replication loop: every remaining scan position receives `last`. -/
def fillRest (perm : Fin 64 → Fin 64) (last : Nat) :
    List (Fin 64) → (Fin 64 → Nat) → (Fin 64 → Nat)
  | [], mat => mat
  | i :: rest, mat => fillRest perm last rest (Function.update mat (perm i) last)

/- Custom quantization matrix load from `decode_vol_header`: run of 8-bit
values over the 64 scan positions, then replication of the last value. -/
def loadCustomMatrix (perm : Fin 64 → Fin 64) (stream : List Nat)
    (mat : Fin 64 → Nat) : Option (Fin 64 → Nat) :=
  (storeRun perm (List.finRange 64) stream 0 mat).map
    (fun r => fillRest perm r.2.2 r.2.1 r.1)

/- Spelled-out form of the updates performed by a terminated `storeRun`. -/
def runUpdates (perm : Fin 64 → Fin 64) (pairs : List (Fin 64 × Nat))
    (mat : Fin 64 → Nat) : Fin 64 → Nat :=
  pairs.foldl (fun m p => Function.update m (perm p.1) p.2) mat

theorem fillRest_apply (perm : Fin 64 → Fin 64) (last : Nat) :
    ∀ (idxs : List (Fin 64)) (mat : Fin 64 → Nat) (x : Fin 64),
      fillRest perm last idxs mat x =
        if x ∈ idxs.map perm then last else mat x := by
  intro idxs
  induction idxs with
  | nil => intro mat x; simp [fillRest]
  | cons i rest ih =>
    intro mat x
    rw [fillRest, ih]
    by_cases hx : x ∈ rest.map perm
    · simp [hx]
    · by_cases hxi : x = perm i
      · simp [hx, hxi, Function.update]
      · simp [hx, hxi, Function.update, Ne.symm hxi]

theorem storeRun_append_zero (perm : Fin 64 → Fin 64) :
    ∀ (pfx : List Nat) (idxs : List (Fin 64)) (rest : List Nat) (last0 : Nat)
      (mat : Fin 64 → Nat), (∀ v ∈ pfx, v ≠ 0) → pfx.length ≤ idxs.length →
      storeRun perm idxs (pfx ++ 0 :: rest) last0 mat =
        some (runUpdates perm (idxs.zip pfx) mat, idxs.drop pfx.length,
              pfx.getLastD last0) := by
  intro pfx
  induction pfx with
  | nil =>
    intro idxs rest last0 mat _ _
    cases idxs with
    | nil => simp [storeRun, runUpdates]
    | cons i t => simp [storeRun, runUpdates]
  | cons v vs ih =>
    intro idxs rest last0 mat hnz hlen
    cases idxs with
    | nil => simp at hlen
    | cons i t =>
      have hv : v ≠ 0 := hnz v (List.mem_cons_self v vs)
      rw [List.cons_append, storeRun, if_neg hv,
          ih t rest v (Function.update mat (perm i) v)
            (fun w hw => hnz w (List.mem_cons_of_mem v hw))
            (by simp only [List.length_cons] at hlen; omega)]
      simp only [List.zip_cons_cons, List.length_cons, List.drop_succ_cons,
        List.getLastD_cons, runUpdates, List.foldl_cons]

theorem runUpdates_apply_not_mem (perm : Fin 64 → Fin 64) :
    ∀ (pairs : List (Fin 64 × Nat)) (mat : Fin 64 → Nat) (x : Fin 64),
      (∀ p ∈ pairs, perm p.1 ≠ x) → runUpdates perm pairs mat x = mat x := by
  intro pairs
  induction pairs with
  | nil => intro mat x _; rfl
  | cons p t ih =>
    intro mat x hx
    rw [runUpdates, List.foldl_cons]
    rw [show List.foldl (fun m q => Function.update m (perm q.1) q.2)
          (Function.update mat (perm p.1) p.2) t =
        runUpdates perm t (Function.update mat (perm p.1) p.2) from rfl]
    rw [ih _ x (fun q hq => hx q (List.mem_cons_of_mem p hq))]
    exact Function.update_noteq (Ne.symm (hx p (List.mem_cons_self p t))) _ _

theorem runUpdates_apply_getElem (perm : Fin 64 → Fin 64)
    (hperm : Function.Injective perm) :
    ∀ (pairs : List (Fin 64 × Nat)) (mat : Fin 64 → Nat) (k : Nat)
      (hk : k < pairs.length), (pairs.map Prod.fst).Nodup →
      runUpdates perm pairs mat (perm (pairs.get ⟨k, hk⟩).1) =
        (pairs.get ⟨k, hk⟩).2 := by
  intro pairs
  induction pairs with
  | nil => intro mat k hk _; exact absurd hk (by simp)
  | cons p t ih =>
    intro mat k hk hnd
    have hnd1 : p.1 ∉ t.map Prod.fst := (List.nodup_cons.mp (by simpa using hnd)).1
    have hnd2 : (t.map Prod.fst).Nodup := (List.nodup_cons.mp (by simpa using hnd)).2
    cases k with
    | zero =>
      simp only [List.get]
      rw [runUpdates, List.foldl_cons,
          show List.foldl (fun m q => Function.update m (perm q.1) q.2)
            (Function.update mat (perm p.1) p.2) t =
          runUpdates perm t (Function.update mat (perm p.1) p.2) from rfl,
          runUpdates_apply_not_mem perm t _ _ ?_]
      · exact Function.update_same _ _ _
      · intro q hq hqp
        exact hnd1 (by
          have : q.1 = p.1 := hperm hqp
          exact this ▸ List.mem_map_of_mem Prod.fst hq)
    | succ k =>
      simp only [List.get]
      rw [runUpdates, List.foldl_cons,
          show List.foldl (fun m q => Function.update m (perm q.1) q.2)
            (Function.update mat (perm p.1) p.2) t =
          runUpdates perm t (Function.update mat (perm p.1) p.2) from rfl]
      exact ih _ k (by simpa using Nat.lt_of_succ_lt_succ hk) hnd2

theorem map_fst_zip_eq_take {α β : Type} :
    ∀ (l1 : List α) (l2 : List β),
      (l1.zip l2).map Prod.fst = l1.take l2.length := by
  intro l1
  induction l1 with
  | nil => intro l2; simp
  | cons a t ih =>
    intro l2
    cases l2 with
    | nil => simp
    | cons b s => simp [ih s]

theorem mem_drop_finRange {n k : Nat} (i : Fin n) :
    i ∈ (List.finRange n).drop k ↔ k ≤ (i : Nat) := by
  constructor
  · intro h
    obtain ⟨j, hj, hji⟩ := List.getElem_of_mem h
    have hkj : k + j < n := by
      simp only [List.length_drop, List.length_finRange] at hj
      omega
    rw [List.getElem_drop, List.getElem_finRange] at hji
    have hv : k + j = (i : Nat) := congrArg Fin.val hji
    omega
  · intro h
    have hi : (i : Nat) < n := i.isLt
    have hlt : (i : Nat) - k < ((List.finRange n).drop k).length := by
      simp [List.length_drop]; omega
    refine List.mem_iff_getElem.mpr ⟨(i : Nat) - k, hlt, ?_⟩
    rw [List.getElem_drop, List.getElem_finRange]
    apply Fin.ext
    simp; omega

/-- C2: the custom quantization matrix loader of `decode_vol_header`
consumes 8-bit values in scan order, stops at a zero byte (or after 64
values), and fills every remaining scan position with the last nonzero
value read: for a stream consisting of a nonempty run `pfx` of nonzero
bytes followed by a zero terminator, scan position i receives `pfx[i]`
for i < |pfx| and `pfx.getLast` for every later position — all stored
through the (injective) zig-zag/IDCT permutation. -/
theorem C2_quant_matrix_replication (perm : Fin 64 → Fin 64)
    (hperm : Function.Injective perm) (pfx : List Nat) (hne : pfx ≠ [])
    (hnz : ∀ v ∈ pfx, v ≠ 0) (hlen : pfx.length ≤ 64) (rest : List Nat)
    (mat : Fin 64 → Nat) :
    ∃ m, loadCustomMatrix perm (pfx ++ 0 :: rest) mat = some m ∧
      (∀ (i : Fin 64) (h : (i : Nat) < pfx.length), m (perm i) = pfx.get ⟨i, h⟩) ∧
      (∀ i : Fin 64, pfx.length ≤ (i : Nat) → m (perm i) = pfx.getLast hne) := by
  have hlen64 : pfx.length ≤ (List.finRange 64).length := by simpa using hlen
  refine ⟨fillRest perm (pfx.getLastD 0) ((List.finRange 64).drop pfx.length)
      (runUpdates perm ((List.finRange 64).zip pfx) mat), ?_, ?_, ?_⟩
  · unfold loadCustomMatrix
    rw [storeRun_append_zero perm pfx (List.finRange 64) rest 0 mat hnz hlen64]
    rfl
  · intro i hi
    rw [fillRest_apply]
    have hnotmem : perm i ∉ ((List.finRange 64).drop pfx.length).map perm := by
      intro hmem
      have : i ∈ (List.finRange 64).drop pfx.length :=
        (List.mem_map_of_injective hperm).mp hmem
      have := (mem_drop_finRange i).mp this
      omega
    rw [if_neg hnotmem]
    have hzlen : i.val < ((List.finRange 64).zip pfx).length := by
      simp [List.length_zip]; omega
    have hkey : (((List.finRange 64).zip pfx).get ⟨i.val, hzlen⟩).1 = i := by
      rw [List.get_eq_getElem, List.getElem_zip]
      exact Fin.ext (by simp)
    have hval : (((List.finRange 64).zip pfx).get ⟨i.val, hzlen⟩).2 = pfx.get ⟨i, hi⟩ := by
      rw [List.get_eq_getElem, List.getElem_zip]
      rfl
    have hnd : (((List.finRange 64).zip pfx).map Prod.fst).Nodup := by
      rw [map_fst_zip_eq_take]
      exact (List.take_sublist _ _).nodup (List.nodup_finRange 64)
    have := runUpdates_apply_getElem perm hperm ((List.finRange 64).zip pfx) mat
      i.val hzlen hnd
    rw [hkey, hval] at this
    exact this
  · intro i hi
    rw [fillRest_apply]
    have hmem : perm i ∈ ((List.finRange 64).drop pfx.length).map perm :=
      (List.mem_map_of_injective hperm).mpr ((mem_drop_finRange i).mpr hi)
    rw [if_pos hmem]
    rw [List.getLastD_eq_getLast?, List.getLast?_eq_getLast_of_ne_nil hne]
    rfl

/-- C2 witness: the byte stream `[5, 3, 0]` with the identity permutation
and an all-zero initial matrix yields 5 at scan position 0, 3 at scan
position 1, and 3 at every scan position 2..63. -/
theorem C2_quant_matrix_replication_witness :
    ∃ m, loadCustomMatrix id [5, 3, 0] (fun _ => 0) = some m ∧
      (∀ (i : Fin 64) (h : (i : Nat) < [5, 3].length), m (id i) = [5, 3].get ⟨i, h⟩) ∧
      (∀ i : Fin 64, [5, 3].length ≤ (i : Nat) → m (id i) = [5, 3].getLast (by decide)) :=
  C2_quant_matrix_replication id (fun _ _ h => h) [5, 3] (by decide)
    (by decide) (by decide) [] (fun _ => 0)

/-! ### Time-increment-bits recovery (`decode_vop_header`) -/

/- Peek of the next n bits of the stream as an MSB-first value
(`show_bits`); reads past the end of the buffer see zero padding. -/
def showBits (bs : List Bool) (n : Nat) : Nat :=
  (List.range n).foldl (fun v i => 2 * v + (if bs.getD i false then 1 else 0)) 0

/- The picture-type-dependent marker pattern test of the recovery scan:
for P pictures and S pictures with GMC sprites, the 6 bits after a
candidate time-increment field of width tib must satisfy
`(bits & 0x37) == 0x30`; otherwise the 5 bits after the field must
satisfy `(bits & 0x1F) == 0x18`. -/
def tibMatch (pt : PictType) (volSpriteGmc : Bool) (bs : List Bool) (tib : Nat) : Bool :=
  if pt = PictType.P ∨ (pt = PictType.S ∧ volSpriteGmc = true) then
    showBits bs (tib + 6) &&& 0x37 == 0x30
  else
    showBits bs (tib + 5) &&& 0x1F == 0x18

/- The recovery scan `for (tib = 1; tib < 16; tib++)`: the first matching
candidate width wins; if none matches the loop leaves tib = 16. -/
def scanTibFrom (pt : PictType) (volSpriteGmc : Bool) (bs : List Bool) (tib : Nat) : Nat :=
  if h : tib < 16 then
    if tibMatch pt volSpriteGmc bs tib then tib else scanTibFrom pt volSpriteGmc bs (tib + 1)
  else tib
termination_by 16 - tib

/- Entry condition and result of the self-healing `time_increment_bits`
logic of `decode_vop_header`: when the stored width is 0 or the single-bit
marker does not follow the time-increment field, rescan; the returned
Bool records that the recovery (and its log message) happened.  The
function is total: decoding continues either way. -/
def vopTimeIncrementBits (tib0 : Nat) (pt : PictType) (volSpriteGmc : Bool)
    (bs : List Bool) : Nat × Bool :=
  if tib0 = 0 ∨ showBits bs (tib0 + 1) &&& 1 = 0 then
    (scanTibFrom pt volSpriteGmc bs 1, true)
  else
    (tib0, false)

theorem scanTibFrom_spec (pt : PictType) (volSpriteGmc : Bool) (bs : List Bool)
    (wmin : Nat) (h15 : wmin ≤ 15) (hmatch : tibMatch pt volSpriteGmc bs wmin = true) :
    ∀ k, k ≤ wmin → (∀ w, k ≤ w → w < wmin → tibMatch pt volSpriteGmc bs w = false) →
      scanTibFrom pt volSpriteGmc bs k = wmin := by
  suffices h : ∀ n k, wmin - k = n → k ≤ wmin →
      (∀ w, k ≤ w → w < wmin → tibMatch pt volSpriteGmc bs w = false) →
      scanTibFrom pt volSpriteGmc bs k = wmin by
    intro k hk hnone
    exact h (wmin - k) k rfl hk hnone
  intro n
  induction n with
  | zero =>
    intro k heq hk _
    have hkw : k = wmin := by omega
    subst hkw
    rw [scanTibFrom, dif_pos (by omega), if_pos hmatch]
  | succ n ih =>
    intro k heq hk hnone
    have hklt : k < wmin := by omega
    rw [scanTibFrom, dif_pos (by omega),
        if_neg (by rw [hnone k le_rfl hklt]; exact Bool.false_ne_true)]
    exact ih (k + 1) (by omega) (by omega) (fun w hw1 hw2 => hnone w (by omega) hw2)

/-- C4: whenever the stored `time_increment_bits` is 0 or the expected
single-bit marker does not follow the time-increment field, the parser
rescans candidate widths 1..15 in increasing order and adopts the first
width whose following bits match the picture-type-dependent marker
pattern (`tibMatch`), flags/logs the recovery, and continues without
failing. -/
theorem C4_time_increment_recovery (tib0 : Nat) (pt : PictType)
    (volSpriteGmc : Bool) (bs : List Bool)
    (htrig : tib0 = 0 ∨ showBits bs (tib0 + 1) &&& 1 = 0)
    (wmin : Nat) (h1 : 1 ≤ wmin) (h15 : wmin ≤ 15)
    (hmatch : tibMatch pt volSpriteGmc bs wmin = true)
    (hleast : ∀ w, 1 ≤ w → w < wmin → tibMatch pt volSpriteGmc bs w = false) :
    vopTimeIncrementBits tib0 pt volSpriteGmc bs = (wmin, true) := by
  unfold vopTimeIncrementBits
  rw [if_pos htrig, scanTibFrom_spec pt volSpriteGmc bs wmin h15 hmatch 1 h1 hleast]

/-- C4 witness: an I-picture VOP header stream whose 4-bit time-increment
field is not followed by a marker bit; scanning selects width 2 (the
first width whose next 5 bits match `11000`), and the recovery flag is
set. -/
theorem C4_time_increment_recovery_witness :
    vopTimeIncrementBits 4 PictType.I false
      [false, false, true, true, false, false, false] = (2, true) :=
  C4_time_increment_recovery 4 PictType.I false
    [false, false, true, true, false, false, false]
    (Or.inr (by decide)) 2 (by decide) (by decide) (by decide)
    (fun w hw1 hw2 => by
      have hw : w = 1 := by omega
      subst hw
      decide)

/-! ### Video packet headers (`ff_mpeg4_decode_video_packet_header`) and
in-stream resync detection (`mpeg4_is_resync`) -/

/- VOL shapes distinguished by the packet-header parser. -/
inductive Shape
  | rect
  | binOnly
  | other
deriving DecidableEq, Repr

/- The unary zero-run read `for (len = 0; len < 32; len++) if (get_bits1)
break;`: counts the zero bits before the first one bit (consuming that
one bit), stopping after at most 32 iterations; reads past the end of the
buffer see zero padding. -/
def unaryRun : Nat → List Bool → Nat × List Bool
  | 0, bs => (0, bs)
  | fuel + 1, bs =>
    if bs.getD 0 false then (0, bs.drop 1)
    else
      let r := unaryRun fuel (bs.drop 1)
      (r.1 + 1, r.2)

/- The skip loop `while (get_bits1(&s->gb) != 0);` — consume one bits and
the terminating zero bit. -/
def skipOnes : List Bool → List Bool
  | [] => []
  | b :: r => if b then skipOnes r else r

/- `av_log2` of libavutil: floor(log2 x), with av_log2 0 = 0.  Written
with explicit fuel (sufficient for any 64-bit value) so that it reduces
by kernel computation. -/
def log2floor : Nat → Nat → Nat
  | 0, _ => 0
  | fuel + 1, x => if x < 2 then 0 else log2floor fuel (x / 2) + 1

def av_log2 (x : Nat) : Nat := log2floor 64 x

instance {ε α : Type} [DecidableEq ε] [DecidableEq α] :
    DecidableEq (Except ε α)
  | .error e, .error f =>
    if h : e = f then isTrue (by rw [h])
    else isFalse (by intro hc; cases hc; exact h rfl)
  | .error _, .ok _ => isFalse (by intro hc; cases hc)
  | .ok _, .error _ => isFalse (by intro hc; cases hc)
  | .ok a, .ok b =>
    if h : a = b then isTrue (by rw [h])
    else isFalse (by intro hc; cases hc; exact h rfl)

/- Context fields of `Mpeg4DecContext`/`MpegEncContext` consumed by the
packet-header parser.  `plen` is the required unary prefix length.
Modelled from the spec: the deriving function
`ff_mpeg4_get_video_packet_prefix_length(pict_type, f_code, b_code)` is
declared outside this excerpt, so the derived value is taken as an
abstract parameter; all properties below hold for every value of it. -/
structure PacketCtx where
  pictType : PictType
  plen : Nat
  shape : Shape
  mbNum : Nat
  mbWidth : Nat
  quantPrecision : Nat
  timeIncrementBits : Nat
  volSpriteGmc : Bool
  newPred : Bool
deriving DecidableEq, Repr

/- `decode_new_pred`: skips min(time_increment_bits+3, 15) bits, an
optional second such field, and a marker bit; it always returns 0. -/
def decode_new_pred (tib : Nat) (bs : List Bool) : List Bool :=
  let len := min (tib + 3) 15
  let bs := bs.drop len
  let b := bs.getD 0 false
  let bs := bs.drop 1
  let bs := if b then bs.drop len else bs
  bs.drop 1

/- Parser state right before the `fcode_for` read of
`ff_mpeg4_decode_video_packet_header`. -/
structure PacketPre where
  headerExt : Bool
  mbX : Nat
  mbY : Nat
  qscale : Option Nat
  rest : List Bool
deriving DecidableEq, Repr

/- The part of `ff_mpeg4_decode_video_packet_header` that follows the
prefix-length check: header-extension flag, mb_num, quantizer, and (when
the extension is present) the skipped time/coding-type fields and the
sprite trajectory for S+GMC.  `spriteParse` abstracts the VLC-driven
`mpeg4_decode_sprite_trajectory` bit consumption (`none` = failure). -/
def videoPacketHeaderPre2 (c : PacketCtx)
    (spriteParse : List Bool → Option (List Bool)) (bs : List Bool) :
    Except Int PacketPre :=
  let mbNumBits := av_log2 (c.mbNum - 1) + 1
  let he0 := if c.shape ≠ Shape.rect then bs.getD 0 false else false
  let bs1 := if c.shape ≠ Shape.rect then bs.drop 1 else bs
  let mbn := showBits bs1 mbNumBits
  let bs2 := bs1.drop mbNumBits
  if c.mbNum ≤ mbn ∨ mbn = 0 then .error AVERROR_INVALIDDATA
  else
    let mbX := mbn % c.mbWidth
    let mbY := mbn / c.mbWidth
    let q := if c.shape ≠ Shape.binOnly then showBits bs2 c.quantPrecision else 0
    let bs3 := if c.shape ≠ Shape.binOnly then bs2.drop c.quantPrecision else bs2
    let qscale := if c.shape ≠ Shape.binOnly ∧ q ≠ 0 then some q else none
    let he := if c.shape = Shape.rect then bs3.getD 0 false else he0
    let bs4 := if c.shape = Shape.rect then bs3.drop 1 else bs3
    if he then
      let bs5 := skipOnes bs4
      let bs6 := ((bs5.drop 1).drop c.timeIncrementBits).drop 1
      let bs7 := bs6.drop 2
      if c.shape ≠ Shape.binOnly then
        let bs8 := bs7.drop 3
        if c.pictType = PictType.S ∧ c.volSpriteGmc = true then
          match spriteParse bs8 with
          | none => .error AVERROR_INVALIDDATA
          | some bs9 =>
            .ok { headerExt := true, mbX := mbX, mbY := mbY, qscale := qscale, rest := bs9 }
        else
          .ok { headerExt := true, mbX := mbX, mbY := mbY, qscale := qscale, rest := bs8 }
      else
        .ok { headerExt := true, mbX := mbX, mbY := mbY, qscale := qscale, rest := bs7 }
    else
      .ok { headerExt := false, mbX := mbX, mbY := mbY, qscale := qscale, rest := bs4 }

/- Entry checks of `ff_mpeg4_decode_video_packet_header`: space for a
packet plus header, then the unary resync prefix whose length must equal
the required prefix length exactly. -/
def videoPacketHeaderPre (c : PacketCtx)
    (spriteParse : List Bool → Option (List Bool)) (bs : List Bool) :
    Except Int PacketPre :=
  if bs.length < 20 then .error AVERROR_INVALIDDATA
  else if (unaryRun 32 bs).1 ≠ c.plen then .error AVERROR_INVALIDDATA
  else videoPacketHeaderPre2 c spriteParse (unaryRun 32 bs).2

/- Decoded packet-header record.  `fcodeRead`/`bcodeRead` are the values
of the 3-bit `fcode_for`/`b_code` fields when they were present; a read
value of 0 is only logged as damage, never an error. -/
structure PacketOut where
  mbX : Nat
  mbY : Nat
  qscale : Option Nat
  fcodeRead : Option Nat
  bcodeRead : Option Nat
  rest : List Bool
deriving DecidableEq, Repr

def packetFinish (c : PacketCtx) (st : PacketPre) (f b : Option Nat)
    (bs : List Bool) : PacketOut :=
  { mbX := st.mbX, mbY := st.mbY, qscale := st.qscale, fcodeRead := f,
    bcodeRead := b,
    rest := if c.newPred then decode_new_pred c.timeIncrementBits bs else bs }

/- The tail of `ff_mpeg4_decode_video_packet_header` from the `fcode_for`
read on: it contains no failure path — damaged (zero) codes are logged
and parsing completes. -/
def videoPacketHeaderPost (c : PacketCtx) (st : PacketPre) : PacketOut :=
  if st.headerExt = true ∧ c.shape ≠ Shape.binOnly then
    if c.pictType ≠ PictType.I then
      let f := showBits st.rest 3
      let bs := st.rest.drop 3
      if c.pictType = PictType.B then
        packetFinish c st (some f) (some (showBits bs 3)) (bs.drop 3)
      else
        packetFinish c st (some f) none bs
    else
      packetFinish c st none none st.rest
  else
    packetFinish c st none none st.rest

def ff_mpeg4_decode_video_packet_header (c : PacketCtx)
    (spriteParse : List Bool → Option (List Bool)) (bs : List Bool) :
    Except Int PacketOut :=
  match videoPacketHeaderPre c spriteParse bs with
  | .error e => .error e
  | .ok st => .ok (videoPacketHeaderPost c st)

/- The mb_num validity judgement of `mpeg4_is_resync` (after the unary
run): out-of-range mb_num, zero mb_num, or fewer than 6 bits left after
it give -1, otherwise the decoded mb_num. -/
def resyncMbNum (mbNumBits sMbNum : Nat) (bs : List Bool) : Int :=
  let mbn := showBits bs mbNumBits
  if mbn = 0 ∨ sMbNum < mbn ∨ (bs.drop mbNumBits).length < 6 then -1 else (mbn : Int)

/- The marker-validation tail of `mpeg4_is_resync` (stream positioned
after the one-bit skip and byte alignment): count the unary zero run,
judge mb_num, and accept whenever the run length is at least the
required prefix length; a shorter run returns 0 (no resync found). -/
def mpeg4_is_resync_tail (mbNumBits sMbNum plen : Nat) (bs : List Bool) : Int :=
  let r := unaryRun 32 bs
  if plen ≤ r.1 then resyncMbNum mbNumBits sMbNum r.2 else 0

theorem packetHeader_error_of_prefix_mismatch (c : PacketCtx)
    (spriteParse : List Bool → Option (List Bool)) (bs : List Bool)
    (h20 : ¬ bs.length < 20) (hlen : (unaryRun 32 bs).1 ≠ c.plen) :
    ff_mpeg4_decode_video_packet_header c spriteParse bs =
      Except.error AVERROR_INVALIDDATA := by
  unfold ff_mpeg4_decode_video_packet_header videoPacketHeaderPre
  rw [if_neg h20, if_pos hlen]

/-- C5: the packet header is rejected with `AVERROR_INVALIDDATA` whenever
the unary prefix length differs from the required prefix length derived
from (picture type, f_code, b_code) — for every stream, before any of the
subsequent fields is even examined. -/
theorem C5_packet_prefix_length_mismatch (c : PacketCtx)
    (spriteParse : List Bool → Option (List Bool)) (bs : List Bool)
    (h20 : ¬ bs.length < 20) (hlen : (unaryRun 32 bs).1 ≠ c.plen) :
    ff_mpeg4_decode_video_packet_header c spriteParse bs =
      Except.error AVERROR_INVALIDDATA :=
  packetHeader_error_of_prefix_mismatch c spriteParse bs h20 hlen

/-- C5 witness: a 24-bit stream whose unary prefix has length 2 is
rejected in a context requiring prefix length 17, although every later
field of the packet would parse cleanly. -/
theorem C5_packet_prefix_length_mismatch_witness :
    ff_mpeg4_decode_video_packet_header
      { pictType := PictType.P, plen := 17, shape := Shape.rect, mbNum := 99,
        mbWidth := 11, quantPrecision := 5, timeIncrementBits := 4,
        volSpriteGmc := false, newPred := false }
      (fun bs => some bs)
      (false :: false :: true :: List.replicate 21 true) =
      Except.error AVERROR_INVALIDDATA :=
  C5_packet_prefix_length_mismatch _ _ _ (by decide) (by decide)

/-- C9: the in-stream resync detection path (`mpeg4_is_resync`) accepts a
candidate marker whenever its unary zero-run length is at least the
required prefix length (the result is the mb_num judgement, not the
0/no-resync rejection); and when the run is strictly longer than the
required length — so that exact equality fails — detection still accepts
while the header-parsing path rejects the same-length prefix with
`AVERROR_INVALIDDATA`. -/
theorem C9_resync_detection_accepts_geq (mbNumBits sMbNum plen : Nat) (bs : List Bool) :
    (plen ≤ (unaryRun 32 bs).1 →
      mpeg4_is_resync_tail mbNumBits sMbNum plen bs =
        resyncMbNum mbNumBits sMbNum (unaryRun 32 bs).2) ∧
    (plen < (unaryRun 32 bs).1 →
      ∀ (c : PacketCtx) (sp : List Bool → Option (List Bool)) (bs2 : List Bool),
        c.plen = plen → ¬ bs2.length < 20 →
        (unaryRun 32 bs2).1 = (unaryRun 32 bs).1 →
        ff_mpeg4_decode_video_packet_header c sp bs2 =
          Except.error AVERROR_INVALIDDATA) := by
  constructor
  · intro h
    unfold mpeg4_is_resync_tail
    rw [if_pos h]
  · intro h c sp bs2 hc h20 heq
    exact packetHeader_error_of_prefix_mismatch c sp bs2 h20 (by omega)

/-- C9 witness: a zero run of length 17 where the required prefix length
is 16: detection returns the decoded mb_num (here 1), while the packet
header parser rejects the very same stream. -/
theorem C9_resync_detection_accepts_geq_witness :
    mpeg4_is_resync_tail 7 99 16
      (List.replicate 17 false ++ true ::
        [false, false, false, false, false, false, true,
         false, false, false, false, false, false]) = 1 ∧
    ff_mpeg4_decode_video_packet_header
      { pictType := PictType.P, plen := 16, shape := Shape.rect, mbNum := 99,
        mbWidth := 11, quantPrecision := 5, timeIncrementBits := 4,
        volSpriteGmc := false, newPred := false }
      (fun bs => some bs)
      (List.replicate 17 false ++ true ::
        [false, false, false, false, false, false, true,
         false, false, false, false, false, false]) =
      Except.error AVERROR_INVALIDDATA := by
  refine ⟨?_, ?_⟩
  · rw [(C9_resync_detection_accepts_geq 7 99 16 _).1 (by decide)]
    decide
  · exact (C9_resync_detection_accepts_geq 7 99 16
      (List.replicate 17 false ++ true ::
        [false, false, false, false, false, false, true,
         false, false, false, false, false, false])).2 (by decide)
      _ _ _ rfl (by decide) rfl

/- The qscale/f_code/b_code reads of `decode_vop_header` (the block
beginning `ctx->f_code = 1; ctx->b_code = 1;`): there a zero `f_code`
or `b_code` aborts the frame with `AVERROR_INVALIDDATA`.  The returned
triple is (qscale, f_code, b_code) with qscale `none` when the
binary-only shape skips the block. -/
def decode_vop_header_fcodes (pict : PictType) (shape : Shape)
    (quantPrecision : Nat) (bs : List Bool) :
    Except Int (Option Nat × Nat × Nat × List Bool) :=
  if shape ≠ Shape.binOnly then
    let q := showBits bs quantPrecision
    let bs1 := bs.drop quantPrecision
    if q = 0 then .error AVERROR_INVALIDDATA
    else if pict ≠ PictType.I then
      let f := showBits bs1 3
      let bs2 := bs1.drop 3
      if f = 0 then .error AVERROR_INVALIDDATA
      else if pict = PictType.B then
        let b := showBits bs2 3
        let bs3 := bs2.drop 3
        if b = 0 then .error AVERROR_INVALIDDATA
        else .ok (some q, f, b, bs3)
      else .ok (some q, f, 1, bs2)
    else .ok (some q, 1, 1, bs1)
  else .ok (none, 1, 1, bs)

/-- C10: in the video packet header, a zero `fcode_for` (or, for B
pictures, a zero `b_code`) is only logged: once the fields before the
fcode read have parsed (the pre-stage succeeds), the function always
returns success, and the zero field value is merely recorded; by
contrast, in the VOP header the same zero `f_code`/`b_code` aborts the
frame with `AVERROR_INVALIDDATA`. -/
theorem C10_packet_fcode_zero_only_logged :
    (∀ (c : PacketCtx) (sp : List Bool → Option (List Bool)) (bs : List Bool)
        (st : PacketPre), videoPacketHeaderPre c sp bs = Except.ok st →
        ff_mpeg4_decode_video_packet_header c sp bs =
          Except.ok (videoPacketHeaderPost c st)) ∧
    (∀ (c : PacketCtx) (st : PacketPre), st.headerExt = true →
        c.shape ≠ Shape.binOnly → c.pictType ≠ PictType.I →
        showBits st.rest 3 = 0 →
        (videoPacketHeaderPost c st).fcodeRead = some 0) ∧
    (∀ (c : PacketCtx) (st : PacketPre), st.headerExt = true →
        c.shape ≠ Shape.binOnly → c.pictType = PictType.B →
        showBits (st.rest.drop 3) 3 = 0 →
        (videoPacketHeaderPost c st).bcodeRead = some 0) ∧
    (∀ (pict : PictType) (shape : Shape) (qp : Nat) (bs : List Bool),
        shape ≠ Shape.binOnly → pict ≠ PictType.I →
        showBits bs qp ≠ 0 → showBits (bs.drop qp) 3 = 0 →
        decode_vop_header_fcodes pict shape qp bs =
          Except.error AVERROR_INVALIDDATA) := by
  refine ⟨?_, ?_, ?_, ?_⟩
  · intro c sp bs st h
    unfold ff_mpeg4_decode_video_packet_header
    rw [h]
  · intro c st hext hshape hpict hf
    unfold videoPacketHeaderPost
    rw [if_pos ⟨hext, hshape⟩, if_pos hpict]
    by_cases hb : c.pictType = PictType.B
    · rw [if_pos hb]
      simp [packetFinish, hf]
    · rw [if_neg hb]
      simp [packetFinish, hf]
  · intro c st hext hshape hpict hb
    unfold videoPacketHeaderPost
    rw [if_pos ⟨hext, hshape⟩, if_pos (by rw [hpict]; decide), if_pos hpict]
    simp [packetFinish, hb]
  · intro pict shape qp bs hshape hpict hq hf
    unfold decode_vop_header_fcodes
    rw [if_pos hshape, if_neg hq, if_pos hpict, if_pos hf]

/-- C10 witness: a concrete P-picture video packet with header extension
whose `fcode_for` field reads 0 still parses to success (with the zero
value recorded as logged damage), while the VOP-header read of a zero
`f_code` after a nonzero qscale yields `AVERROR_INVALIDDATA`. -/
theorem C10_packet_fcode_zero_only_logged_witness :
    ff_mpeg4_decode_video_packet_header
      { pictType := PictType.P, plen := 1, shape := Shape.rect, mbNum := 4,
        mbWidth := 2, quantPrecision := 5, timeIncrementBits := 1,
        volSpriteGmc := false, newPred := false }
      (fun bs => some bs)
      [false, true, false, true, false, false, false, false, true, true,
       false, true, false, true, false, false, true, true, true, false, false, false] =
      Except.ok (videoPacketHeaderPost
        { pictType := PictType.P, plen := 1, shape := Shape.rect, mbNum := 4,
          mbWidth := 2, quantPrecision := 5, timeIncrementBits := 1,
          volSpriteGmc := false, newPred := false }
        { headerExt := true, mbX := 1, mbY := 0, qscale := some 1,
          rest := [false, false, false] }) ∧
    (videoPacketHeaderPost
        { pictType := PictType.P, plen := 1, shape := Shape.rect, mbNum := 4,
          mbWidth := 2, quantPrecision := 5, timeIncrementBits := 1,
          volSpriteGmc := false, newPred := false }
        { headerExt := true, mbX := 1, mbY := 0, qscale := some 1,
          rest := [false, false, false] }).fcodeRead = some 0 ∧
    decode_vop_header_fcodes PictType.P Shape.rect 5
      [false, false, false, false, true, false, false, false] =
      Except.error AVERROR_INVALIDDATA :=
  ⟨C10_packet_fcode_zero_only_logged.1 _ (fun bs => some bs) _ _ (by decide),
   C10_packet_fcode_zero_only_logged.2.1 _ _ (by decide) (by decide) (by decide) (by decide),
   C10_packet_fcode_zero_only_logged.2.2.2 PictType.P Shape.rect 5 _
     (by decide) (by decide) (by decide) (by decide)⟩

/-! ### Residual coefficient decoding (`mpeg4_decode_block`) -/

/- One symbol lookup from an RL-VLC table — the consumed VLC capability:
the table is a prefix-code list of (code bits, level, run) entries; a
level of 0 is the table's escape sentinel.  Lookup returns the matched
entry and the stream after the code word. -/
def matchCode : List Bool → List Bool → Option (List Bool)
  | [], bs => some bs
  | _ :: _, [] => none
  | c :: cr, b :: br => if c = b then matchCode cr br else none

def vlcLookup : List (List Bool × Int × Nat) → List Bool → Option (Int × Nat × List Bool)
  | [], _ => none
  | e :: t, bs =>
    match matchCode e.1 bs with
    | some rest => some (e.2.1, e.2.2, rest)
    | none => vlcLookup t bs

/- Signed read of n bits (SHOW_SBITS): two's complement value. -/
def sbits (bs : List Bool) (n : Nat) : Int :=
  let v := showBits bs n
  if 2 ^ (n - 1) ≤ v then (v : Int) - 2 ^ n else (v : Int)

/- The trailing-sign application `level = (level ^ s) - s` where s is the
1-bit sign read as 0 or -1: in two's complement this is negation exactly
when the sign bit is set. -/
def applySign (level : Int) (s : Bool) : Int := if s then -level else level

/- The decoding paths of the (run, level) loop. -/
inductive EscTier
  | direct
  | rvlcEsc
  | esc1
  | esc2
  | esc3
deriving DecidableEq, Repr

/- Dispatch alternatives once the escape sentinel was decoded. -/
inductive EscKind
  | rvlcE
  | e1
  | e2
  | e3
deriving DecidableEq, Repr

def kindTier : EscKind → EscTier
  | EscKind.rvlcE => EscTier.rvlcEsc
  | EscKind.e1 => EscTier.esc1
  | EscKind.e2 => EscTier.esc2
  | EscKind.e3 => EscTier.esc3

/- Escape-tier selection after the escape sentinel: the RVLC path has its
own escape syntax; otherwise the next cache bits decide — first escape
when the next bit is 0, second escape on 10, third escape on 11 (in this
source IS_3IV1 is the constant 0, so no cache XOR happens). -/
def escKind (rvlc : Bool) (rest : List Bool) : EscKind :=
  if rvlc then EscKind.rvlcE
  else if rest.getD 0 false then
    if rest.getD 1 false then EscKind.e3 else EscKind.e2
  else EscKind.e1

/- Parameters of the coefficient loop: the RL-VLC table, the RLTable
side tables max_level/max_run, the quantizer scaling, and the error
recognition flags consulted by the third escape. -/
structure RLParams where
  table : List (List Bool × Int × Nat)
  maxLevel : Nat → Nat → Int
  maxRun : Nat → Int → Nat
  qmul : Int
  qadd : Int
  rvlc : Bool
  ignoreErr : Bool
  strict : Bool

/- Outcome of one iteration of the (run, level) loop: a decoded
coefficient (with the increment added to the position index i, biased by
192 when the last flag is set) or an invalid-data failure. -/
inductive CoefStep
  | fail (code : Int)
  | coeff (tier : EscTier) (iInc : Nat) (level : Int) (rest : List Bool)
deriving DecidableEq, Repr

/- First escape: one more symbol from the same table, the level widened
by `max_level[run >> 7][(run - 1) & 63] * qmul` (the index `(run-1)&63`
of the C source is two's complement, i.e. `(run + 63) % 64`). -/
def esc1Parse (p : RLParams) (bs : List Bool) : CoefStep :=
  match vlcLookup p.table bs with
  | none => CoefStep.fail AVERROR_INVALIDDATA
  | some (level, run, rest) =>
    let level := level + p.maxLevel (run >>> 7) ((run + 63) % 64) * p.qmul
    CoefStep.coeff EscTier.esc1 run (applySign level (rest.getD 0 false)) (rest.drop 1)

/- Second escape: one more symbol, the run widened by
`max_run[run >> 7][level / qmul] + 1`. -/
def esc2Parse (p : RLParams) (bs : List Bool) : CoefStep :=
  match vlcLookup p.table bs with
  | none => CoefStep.fail AVERROR_INVALIDDATA
  | some (level, run, rest) =>
    let iInc := run + p.maxRun (run >>> 7) (level.tdiv p.qmul) + 1
    CoefStep.coeff EscTier.esc2 iInc (applySign level (rest.getD 0 false)) (rest.drop 1)

/- Third escape: fixed-width last/run/level fields with marker bits
(missing markers are fatal unless AV_EF_IGNORE_ERR is set and bits
remain), quantizer scaling, and saturation of out-of-range levels (fatal
beyond ±2560 under strict error recognition). -/
def esc3Parse (p : RLParams) (bs : List Bool) : CoefStep :=
  let last := bs.getD 0 false
  let run := showBits (bs.drop 1) 6
  let bs1 := bs.drop 7
  if bs1.getD 0 false = false ∧ (¬ p.ignoreErr = true ∨ bs1.length = 0) then
    CoefStep.fail AVERROR_INVALIDDATA
  else
    let level0 := sbits (bs1.drop 1) 12
    let bs2 := bs1.drop 13
    if bs2.getD 0 false = false ∧ (¬ p.ignoreErr = true ∨ bs2.length = 0) then
      CoefStep.fail AVERROR_INVALIDDATA
    else
      let bs3 := bs2.drop 1
      let level := if 0 < level0 then level0 * p.qmul + p.qadd
                   else level0 * p.qmul - p.qadd
      let iInc := run + 1 + if last then 192 else 0
      if level < -2048 ∨ 2047 < level then
        if p.strict = true ∧ (2560 < level ∨ level < -2560) then
          CoefStep.fail AVERROR_INVALIDDATA
        else
          CoefStep.coeff EscTier.esc3 iInc (if level < 0 then -2048 else 2047) bs3
      else
        CoefStep.coeff EscTier.esc3 iInc level bs3

/- The RVLC escape: marker, last, 6-bit run, marker, 11-bit level, the
5-bit reverse-escape pattern 0x10, and a trailing sign. -/
def rvlcEscParse (p : RLParams) (bs : List Bool) : CoefStep :=
  if bs.getD 0 false = false then CoefStep.fail AVERROR_INVALIDDATA
  else
    let last := bs.getD 1 false
    let run := showBits (bs.drop 2) 6
    let bs1 := bs.drop 8
    if bs1.getD 0 false = false then CoefStep.fail AVERROR_INVALIDDATA
    else
      let level0 := showBits (bs1.drop 1) 11
      if showBits (bs1.drop 12) 5 ≠ 0x10 then CoefStep.fail AVERROR_INVALIDDATA
      else
        let level := (level0 : Int) * p.qmul + p.qadd
        let s := (bs1.drop 17).getD 0 false
        CoefStep.coeff EscTier.rvlcEsc (run + 1 + if last then 192 else 0)
          (applySign level s) (bs1.drop 18)

/- The escape branch of the loop body (reached only for the sentinel). -/
def escDispatch (p : RLParams) (rest : List Bool) : CoefStep :=
  match escKind p.rvlc rest with
  | EscKind.rvlcE => rvlcEscParse p rest
  | EscKind.e1 => esc1Parse p (rest.drop 1)
  | EscKind.e2 => esc2Parse p (rest.drop 2)
  | EscKind.e3 => esc3Parse p (rest.drop 2)

/- One iteration of the (run, level) loop of `mpeg4_decode_block`: a
direct table symbol with nonzero level is used as decoded; only the
sentinel level 0 enters the escape dispatch. -/
def mpeg4_decode_block_step (p : RLParams) (bs : List Bool) : CoefStep :=
  match vlcLookup p.table bs with
  | none => CoefStep.fail AVERROR_INVALIDDATA
  | some (level, run, rest) =>
    if level ≠ 0 then
      CoefStep.coeff EscTier.direct run (applySign level (rest.getD 0 false)) (rest.drop 1)
    else
      escDispatch p rest

/-- C8: in the coefficient loop of `mpeg4_decode_block`, (i) a direct
table symbol with nonzero level is always decoded via the direct path —
any (run, level) pair representable by a direct table code never enters
an escape; (ii) the escape dispatch is reached exactly when the lookup
returns the sentinel level 0; and (iii) for the non-RVLC syntax, the
tiers are distinguished in fixed priority order by the immediately
following bits: first escape on next bit 0, second on 10, third on 11. -/
theorem C8_escape_priority_order (p : RLParams) (bs : List Bool) :
    (∀ level run rest, vlcLookup p.table bs = some (level, run, rest) → level ≠ 0 →
      mpeg4_decode_block_step p bs =
        CoefStep.coeff EscTier.direct run
          (applySign level (rest.getD 0 false)) (rest.drop 1)) ∧
    (∀ run rest, vlcLookup p.table bs = some (0, run, rest) →
      mpeg4_decode_block_step p bs = escDispatch p rest) ∧
    (p.rvlc = false →
      (∀ r : List Bool, escKind false (false :: r) = EscKind.e1 ∧
        kindTier (escKind false (false :: r)) = EscTier.esc1) ∧
      (∀ r : List Bool, escKind false (true :: false :: r) = EscKind.e2 ∧
        kindTier (escKind false (true :: false :: r)) = EscTier.esc2) ∧
      (∀ r : List Bool, escKind false (true :: true :: r) = EscKind.e3 ∧
        kindTier (escKind false (true :: true :: r)) = EscTier.esc3)) := by
  refine ⟨?_, ?_, ?_⟩
  · intro level run rest h hne
    unfold mpeg4_decode_block_step
    rw [h]
    simp [hne]
  · intro run rest h
    unfold mpeg4_decode_block_step
    rw [h]
    simp
  · intro _
    exact ⟨fun r => ⟨rfl, rfl⟩, fun r => ⟨rfl, rfl⟩, fun r => ⟨rfl, rfl⟩⟩

/-- C8 witness: with a table holding the direct code 1 → (level 2, run 1)
and the escape code 01 → sentinel, the stream 11… decodes via the direct
path to (run 1, level -2), and the stream 010… enters the first-escape
dispatch. -/
theorem C8_escape_priority_order_witness :
    mpeg4_decode_block_step
      { table := [([true], 2, 1), ([false, true], 0, 0)],
        maxLevel := fun _ _ => 12, maxRun := fun _ _ => 9, qmul := 2,
        qadd := 1, rvlc := false, ignoreErr := false, strict := false }
      [true, true, false] =
      CoefStep.coeff EscTier.direct 1 (-2) [false] ∧
    mpeg4_decode_block_step
      { table := [([true], 2, 1), ([false, true], 0, 0)],
        maxLevel := fun _ _ => 12, maxRun := fun _ _ => 9, qmul := 2,
        qadd := 1, rvlc := false, ignoreErr := false, strict := false }
      [false, true, false, true, true] =
      escDispatch
        { table := [([true], 2, 1), ([false, true], 0, 0)],
          maxLevel := fun _ _ => 12, maxRun := fun _ _ => 9, qmul := 2,
          qadd := 1, rvlc := false, ignoreErr := false, strict := false }
        [false, true, true] := by
  constructor
  · exact (C8_escape_priority_order
      { table := [([true], 2, 1), ([false, true], 0, 0)],
        maxLevel := fun _ _ => 12, maxRun := fun _ _ => 9, qmul := 2,
        qadd := 1, rvlc := false, ignoreErr := false, strict := false }
      [true, true, false]).1 2 1 [true, false] (by decide) (by decide)
  · exact (C8_escape_priority_order
      { table := [([true], 2, 1), ([false, true], 0, 0)],
        maxLevel := fun _ _ => 12, maxRun := fun _ _ => 9, qmul := 2,
        qadd := 1, rvlc := false, ignoreErr := false, strict := false }
      [false, true, false, true, true]).2.1 0 [false, true, true] (by decide)

/-! ### GMC sprite trajectory (`mpeg4_decode_sprite_trajectory`) -/

/- Inputs of the trajectory math: the VLC-decoded corner displacements
d[i] are taken as parameters (the bit reads are the consumed VLC
capability); d entries at and beyond `num_sprite_warping_points` are 0
as in the C initialisation. -/
structure SpriteParams where
  npoints : Fin 4
  accuracy : Nat
  divx500b413 : Bool
  w : Int
  h : Int
  dx0 : Int
  dy0 : Int
  dx1 : Int
  dy1 : Int
  dx2 : Int
  dy2 : Int
deriving DecidableEq, Repr

/- a = 2 << sprite_warping_accuracy. -/
def spA (p : SpriteParams) : Int := 2 ^ (p.accuracy + 1)

/- rho = 3 - sprite_warping_accuracy. -/
def spRho (p : SpriteParams) : Nat := 3 - p.accuracy

/- r = 16 / a. -/
def spR (p : SpriteParams) : Int := Int.tdiv 16 (spA p)

/- The loops `while ((1 << alpha) < w) alpha++` (alpha starts at 1) and
`while ((1 << beta) < h) beta++` (beta starts at 0), with fuel covering
any 64-bit dimension. -/
def growShift (x : Int) : Nat → Nat → Nat
  | 0, cur => cur
  | fuel + 1, cur => if (2 : Int) ^ cur < x then growShift x fuel (cur + 1) else cur

def alphaOf (w : Int) : Nat := growShift w 64 1

def betaOf (h : Int) : Nat := growShift h 64 0

/- The displacement sums d[0], d[0]+d[1], d[0]+d[2] feeding the three
used reference points, with unread displacements zero. -/
def spD (p : SpriteParams) : Fin 3 → Int × Int
  | 0 => if 0 < p.npoints.val then (p.dx0, p.dy0) else (0, 0)
  | 1 => if 1 < p.npoints.val then (p.dx1, p.dy1) else (0, 0)
  | 2 => if 2 < p.npoints.val then (p.dx2, p.dy2) else (0, 0)

/- vop_ref for rectangular shapes: (0,0), (w,0), (0,h). -/
def vopRef (p : SpriteParams) : Fin 3 → Int × Int
  | 0 => (0, 0)
  | 1 => (p.w, 0)
  | 2 => (0, p.h)

/- sprite_ref[0..2]: the standard formula `(a>>1)*(2*vop_ref + dsum)`, or
the DivX 5.00 build 413 special case `a*vop_ref + dsum`. -/
def spriteRef (p : SpriteParams) : Fin 3 → Int × Int
  | 0 =>
    let v := vopRef p 0
    let s := spD p 0
    if p.divx500b413 then (spA p * v.1 + s.1, spA p * v.2 + s.2)
    else ((spA p).tdiv 2 * (2 * v.1 + s.1), (spA p).tdiv 2 * (2 * v.2 + s.2))
  | 1 =>
    let v := vopRef p 1
    let s0 := spD p 0
    let s1 := spD p 1
    if p.divx500b413 then
      (spA p * v.1 + s0.1 + s1.1, spA p * v.2 + s0.2 + s1.2)
    else
      ((spA p).tdiv 2 * (2 * v.1 + s0.1 + s1.1), (spA p).tdiv 2 * (2 * v.2 + s0.2 + s1.2))
  | 2 =>
    let v := vopRef p 2
    let s0 := spD p 0
    let s2 := spD p 2
    if p.divx500b413 then
      (spA p * v.1 + s0.1 + s2.1, spA p * v.2 + s0.2 + s2.2)
    else
      ((spA p).tdiv 2 * (2 * v.1 + s0.1 + s2.1), (spA p).tdiv 2 * (2 * v.2 + s0.2 + s2.2))

/- virtual_ref[0..1]: the w/h to w2/h2 rescaling via ROUNDED_DIV. -/
def virtualRef (p : SpriteParams) : Fin 2 → Int × Int
  | 0 =>
    let r := spR p
    let w2 : Int := 2 ^ alphaOf p.w
    let v0 := vopRef p 0
    let v1 := vopRef p 1
    let s0 := spriteRef p 0
    let s1 := spriteRef p 1
    (16 * (v0.1 + w2) +
       roundedDiv ((p.w - w2) * (r * s0.1 - 16 * v0.1) + w2 * (r * s1.1 - 16 * v1.1)) p.w,
     16 * v0.2 +
       roundedDiv ((p.w - w2) * (r * s0.2 - 16 * v0.2) + w2 * (r * s1.2 - 16 * v1.2)) p.w)
  | 1 =>
    let r := spR p
    let h2 : Int := 2 ^ betaOf p.h
    let v0 := vopRef p 0
    let v2 := vopRef p 2
    let s0 := spriteRef p 0
    let s2 := spriteRef p 2
    (16 * v0.1 +
       roundedDiv ((p.h - h2) * (r * s0.1 - 16 * v0.1) + h2 * (r * s2.1 - 16 * v2.1)) p.h,
     16 * (v0.2 + h2) +
       roundedDiv ((p.h - h2) * (r * s0.2 - 16 * v0.2) + h2 * (r * s2.2 - 16 * v2.2)) p.h)

/- The raw sprite_offset/sprite_delta/sprite_shift values produced by
the `switch (ctx->num_sprite_warping_points)`. -/
structure SpriteRaw where
  off00 : Int
  off01 : Int
  off10 : Int
  off11 : Int
  del00 : Int
  del01 : Int
  del10 : Int
  del11 : Int
  shift0 : Nat
  shift1 : Nat
deriving DecidableEq, Repr

/- C `(x >> 1) | (x & 1)` on a two's complement int: the low bit is ORed
into the arithmetically shifted value. -/
def halfRoundOr (x : Int) : Int :=
  let v := Int.ediv x 2
  if x.emod 2 = 0 then v else (if v.emod 2 = 0 then v + 1 else v)

def spriteRawOf (p : SpriteParams) : SpriteRaw :=
  let a := spA p
  let rho := spRho p
  let r := spR p
  let alpha := alphaOf p.w
  let beta := betaOf p.h
  let w2 : Int := 2 ^ alpha
  let v0 := vopRef p 0
  let s0 := spriteRef p 0
  let vr0 := virtualRef p 0
  let vr1 := virtualRef p 1
  if p.npoints.val = 0 then
    { off00 := 0, off01 := 0, off10 := 0, off11 := 0,
      del00 := a, del01 := 0, del10 := 0, del11 := a, shift0 := 0, shift1 := 0 }
  else if p.npoints.val = 1 then
    { off00 := s0.1 - a * v0.1,
      off01 := s0.2 - a * v0.2,
      off10 := halfRoundOr s0.1 - a * (v0.1.tdiv 2),
      off11 := halfRoundOr s0.2 - a * (v0.2.tdiv 2),
      del00 := a, del01 := 0, del10 := 0, del11 := a, shift0 := 0, shift1 := 0 }
  else if p.npoints.val = 2 then
    { off00 := s0.1 * 2 ^ (alpha + rho) +
               (-r * s0.1 + vr0.1) * (-v0.1) + (r * s0.2 - vr0.2) * (-v0.2) +
               2 ^ (alpha + rho - 1),
      off01 := s0.2 * 2 ^ (alpha + rho) +
               (-r * s0.2 + vr0.2) * (-v0.1) + (-r * s0.1 + vr0.1) * (-v0.2) +
               2 ^ (alpha + rho - 1),
      off10 := (-r * s0.1 + vr0.1) * (-2 * v0.1 + 1) +
               (r * s0.2 - vr0.2) * (-2 * v0.2 + 1) +
               2 * w2 * r * s0.1 - 16 * w2 + 2 ^ (alpha + rho + 1),
      off11 := (-r * s0.2 + vr0.2) * (-2 * v0.1 + 1) +
               (-r * s0.1 + vr0.1) * (-2 * v0.2 + 1) +
               2 * w2 * r * s0.2 - 16 * w2 + 2 ^ (alpha + rho + 1),
      del00 := -r * s0.1 + vr0.1,
      del01 := r * s0.2 - vr0.2,
      del10 := -r * s0.2 + vr0.2,
      del11 := -r * s0.1 + vr0.1,
      shift0 := alpha + rho, shift1 := alpha + rho + 2 }
  else
    let min_ab := min alpha beta
    let w3 : Int := 2 ^ (alpha - min_ab)
    let h3 : Int := 2 ^ (beta - min_ab)
    { off00 := s0.1 * 2 ^ (alpha + beta + rho - min_ab) +
               (-r * s0.1 + vr0.1) * h3 * (-v0.1) +
               (-r * s0.1 + vr1.1) * w3 * (-v0.2) +
               2 ^ (alpha + beta + rho - min_ab - 1),
      off01 := s0.2 * 2 ^ (alpha + beta + rho - min_ab) +
               (-r * s0.2 + vr0.2) * h3 * (-v0.1) +
               (-r * s0.2 + vr1.2) * w3 * (-v0.2) +
               2 ^ (alpha + beta + rho - min_ab - 1),
      off10 := (-r * s0.1 + vr0.1) * h3 * (-2 * v0.1 + 1) +
               (-r * s0.1 + vr1.1) * w3 * (-2 * v0.2 + 1) +
               2 * w2 * h3 * r * s0.1 - 16 * w2 * h3 +
               2 ^ (alpha + beta + rho - min_ab + 1),
      off11 := (-r * s0.2 + vr0.2) * h3 * (-2 * v0.1 + 1) +
               (-r * s0.2 + vr1.2) * w3 * (-2 * v0.2 + 1) +
               2 * w2 * h3 * r * s0.2 - 16 * w2 * h3 +
               2 ^ (alpha + beta + rho - min_ab + 1),
      del00 := (-r * s0.1 + vr0.1) * h3,
      del01 := (-r * s0.1 + vr1.1) * w3,
      del10 := (-r * s0.2 + vr0.2) * h3,
      del11 := (-r * s0.2 + vr1.2) * w3,
      shift0 := alpha + beta + rho - min_ab, shift1 := alpha + beta + rho - min_ab + 2 }

/- The `try to simplify` condition: the deltas are pure unit scaling. -/
def spriteSimplifies (p : SpriteParams) (raw : SpriteRaw) : Prop :=
  raw.del00 = spA p * 2 ^ raw.shift0 ∧ raw.del01 = 0 ∧ raw.del10 = 0 ∧
  raw.del11 = spA p * 2 ^ raw.shift0

instance (p : SpriteParams) (raw : SpriteRaw) : Decidable (spriteSimplifies p raw) := by
  unfold spriteSimplifies
  infer_instance

def INT_MAX : Int := 2 ^ 31 - 1

/- The first overflow guard: negative shifts, or any offset/delta at
least INT_MAX >> shift (shift_y = 16 - sprite_shift[0] for the luma row
and the deltas, shift_c = 16 - sprite_shift[1] for the chroma row). -/
def spriteGuard1 (raw : SpriteRaw) : Prop :=
  16 < raw.shift0 ∨ 16 < raw.shift1 ∨
  (let sy := 16 - raw.shift0
   let sc := 16 - raw.shift1
   INT_MAX.tdiv (2 ^ sy) ≤ |raw.off00| ∨ INT_MAX.tdiv (2 ^ sy) ≤ |raw.off01| ∨
   INT_MAX.tdiv (2 ^ sc) ≤ |raw.off10| ∨ INT_MAX.tdiv (2 ^ sc) ≤ |raw.off11| ∨
   INT_MAX.tdiv (2 ^ sy) ≤ |raw.del00| ∨ INT_MAX.tdiv (2 ^ sy) ≤ |raw.del01| ∨
   INT_MAX.tdiv (2 ^ sy) ≤ |raw.del10| ∨ INT_MAX.tdiv (2 ^ sy) ≤ |raw.del11|)

instance (raw : SpriteRaw) : Decidable (spriteGuard1 raw) := by
  unfold spriteGuard1
  infer_instance

/- One row of the second overflow guard, on the rescaled (shift 16)
values; `sd` is the delta relative to the identity warp a·2^16. -/
def spriteGuard2row (w h off d0 d1 a16 : Int) : Prop :=
  let sd0 := d0 - a16
  let sd1 := d1 - a16
  INT_MAX ≤ |off + d0 * (w + 16)| ∨ INT_MAX ≤ |off + d1 * (h + 16)| ∨
  INT_MAX ≤ |off + d0 * (w + 16) + d1 * (h + 16)| ∨
  INT_MAX ≤ |d0 * (w + 16)| ∨ INT_MAX ≤ |d1 * (h + 16)| ∨
  INT_MAX ≤ |sd0| ∨ INT_MAX ≤ |sd1| ∨
  INT_MAX ≤ |off + sd0 * (w + 16)| ∨ INT_MAX ≤ |off + sd1 * (h + 16)| ∨
  INT_MAX ≤ |off + sd0 * (w + 16) + sd1 * (h + 16)|

instance (w h off d0 d1 a16 : Int) : Decidable (spriteGuard2row w h off d0 d1 a16) := by
  unfold spriteGuard2row
  infer_instance

def spriteGuard2 (w h o00 o01 d00 d01 d10 d11 a16 : Int) : Prop :=
  spriteGuard2row w h o00 d00 d01 a16 ∨ spriteGuard2row w h o01 d10 d11 a16

instance (w h o00 o01 d00 d01 d10 d11 a16 : Int) :
    Decidable (spriteGuard2 w h o00 o01 d00 d01 d10 d11 a16) := by
  unfold spriteGuard2
  infer_instance

/- Arithmetic shift right of an int64, i.e. floor division by 2^s. -/
def sar (x : Int) (s : Nat) : Int := Int.ediv x (2 ^ s)

/- The context state written by `mpeg4_decode_sprite_trajectory`, plus
its return value. -/
structure SpriteOut where
  ret : Int
  off00 : Int
  off01 : Int
  off10 : Int
  off11 : Int
  del00 : Int
  del01 : Int
  del10 : Int
  del11 : Int
  shift0 : Nat
  shift1 : Nat
  realPoints : Nat
deriving DecidableEq, Repr

/- Whole trajectory resolution after the VLC reads.  `prevReal` is the
incoming `ctx->real_sprite_warping_points` (untouched on the overflow
paths).  On the early nonpositive-dimension return the C function leaves
the context untouched; no claim consults the array fields there, and the
embedding reports only the error code on that path. -/
def mpeg4_decode_sprite_trajectory (p : SpriteParams) (prevReal : Nat) : SpriteOut :=
  let a := spA p
  let raw := spriteRawOf p
  if p.w ≤ 0 ∨ p.h ≤ 0 then
    { ret := AVERROR_INVALIDDATA, off00 := 0, off01 := 0, off10 := 0, off11 := 0,
      del00 := 0, del01 := 0, del10 := 0, del11 := 0,
      shift0 := 0, shift1 := 0, realPoints := prevReal }
  else if spriteSimplifies p raw then
    { ret := 0,
      off00 := sar raw.off00 raw.shift0, off01 := sar raw.off01 raw.shift0,
      off10 := sar raw.off10 raw.shift1, off11 := sar raw.off11 raw.shift1,
      del00 := a, del01 := 0, del10 := 0, del11 := a,
      shift0 := 0, shift1 := 0, realPoints := 1 }
  else if spriteGuard1 raw then
    { ret := AVERROR_PATCHWELCOME, off00 := 0, off01 := 0, off10 := 0, off11 := 0,
      del00 := 0, del01 := 0, del10 := 0, del11 := 0,
      shift0 := raw.shift0, shift1 := raw.shift1, realPoints := prevReal }
  else
    let sy := 16 - raw.shift0
    let sc := 16 - raw.shift1
    let o00 := raw.off00 * 2 ^ sy
    let o01 := raw.off01 * 2 ^ sy
    let o10 := raw.off10 * 2 ^ sc
    let o11 := raw.off11 * 2 ^ sc
    let d00 := raw.del00 * 2 ^ sy
    let d01 := raw.del01 * 2 ^ sy
    let d10 := raw.del10 * 2 ^ sy
    let d11 := raw.del11 * 2 ^ sy
    if spriteGuard2 p.w p.h o00 o01 d00 d01 d10 d11 (a * 2 ^ 16) then
      { ret := AVERROR_PATCHWELCOME, off00 := 0, off01 := 0, off10 := 0, off11 := 0,
        del00 := 0, del01 := 0, del10 := 0, del11 := 0,
        shift0 := 16, shift1 := 16, realPoints := prevReal }
    else
      { ret := 0, off00 := o00, off01 := o01, off10 := o10, off11 := o11,
        del00 := d00, del01 := d01, del10 := d10, del11 := d11,
        shift0 := 16, shift1 := 16, realPoints := p.npoints.val }

/- The combined representable-range failure condition (either guard, on
the values each guard actually sees). -/
def spriteOverflow (p : SpriteParams) : Prop :=
  spriteGuard1 (spriteRawOf p) ∨
  spriteGuard2 p.w p.h
    ((spriteRawOf p).off00 * 2 ^ (16 - (spriteRawOf p).shift0))
    ((spriteRawOf p).off01 * 2 ^ (16 - (spriteRawOf p).shift0))
    ((spriteRawOf p).del00 * 2 ^ (16 - (spriteRawOf p).shift0))
    ((spriteRawOf p).del01 * 2 ^ (16 - (spriteRawOf p).shift0))
    ((spriteRawOf p).del10 * 2 ^ (16 - (spriteRawOf p).shift0))
    ((spriteRawOf p).del11 * 2 ^ (16 - (spriteRawOf p).shift0))
    (spA p * 2 ^ 16)

instance (p : SpriteParams) : Decidable (spriteOverflow p) := by
  unfold spriteOverflow
  infer_instance

/-- C3: whenever the computed sprite offsets or deltas fail a
representable-integer-range guard (and the pure-scaling simplification
does not apply), `mpeg4_decode_sprite_trajectory` zeroes both the
`sprite_offset` and the `sprite_delta` context arrays and returns the
reported overflow condition `AVERROR_PATCHWELCOME`, a negative error
code, instead of storing any overflowed value. -/
theorem C3_gmc_overflow_fallback (p : SpriteParams) (prevReal : Nat)
    (hw : 0 < p.w) (hh : 0 < p.h)
    (hns : ¬ spriteSimplifies p (spriteRawOf p))
    (hov : spriteOverflow p) :
    ((mpeg4_decode_sprite_trajectory p prevReal).off00 = 0 ∧
     (mpeg4_decode_sprite_trajectory p prevReal).off01 = 0 ∧
     (mpeg4_decode_sprite_trajectory p prevReal).off10 = 0 ∧
     (mpeg4_decode_sprite_trajectory p prevReal).off11 = 0) ∧
    ((mpeg4_decode_sprite_trajectory p prevReal).del00 = 0 ∧
     (mpeg4_decode_sprite_trajectory p prevReal).del01 = 0 ∧
     (mpeg4_decode_sprite_trajectory p prevReal).del10 = 0 ∧
     (mpeg4_decode_sprite_trajectory p prevReal).del11 = 0) ∧
    (mpeg4_decode_sprite_trajectory p prevReal).ret = AVERROR_PATCHWELCOME ∧
    (mpeg4_decode_sprite_trajectory p prevReal).ret < 0 := by
  have h1 : ¬ (p.w ≤ 0 ∨ p.h ≤ 0) := by omega
  rcases hov with hg1 | hg2
  · have hrec : mpeg4_decode_sprite_trajectory p prevReal =
        { ret := AVERROR_PATCHWELCOME, off00 := 0, off01 := 0, off10 := 0, off11 := 0,
          del00 := 0, del01 := 0, del10 := 0, del11 := 0,
          shift0 := (spriteRawOf p).shift0, shift1 := (spriteRawOf p).shift1,
          realPoints := prevReal } := by
      simp only [mpeg4_decode_sprite_trajectory]
      rw [if_neg h1, if_neg hns, if_pos hg1]
    rw [hrec]
    exact ⟨⟨rfl, rfl, rfl, rfl⟩, ⟨rfl, rfl, rfl, rfl⟩, rfl,
        by show AVERROR_PATCHWELCOME < 0; decide⟩
  · by_cases hg1 : spriteGuard1 (spriteRawOf p)
    · have hrec : mpeg4_decode_sprite_trajectory p prevReal =
          { ret := AVERROR_PATCHWELCOME, off00 := 0, off01 := 0, off10 := 0, off11 := 0,
            del00 := 0, del01 := 0, del10 := 0, del11 := 0,
            shift0 := (spriteRawOf p).shift0, shift1 := (spriteRawOf p).shift1,
            realPoints := prevReal } := by
        simp only [mpeg4_decode_sprite_trajectory]
        rw [if_neg h1, if_neg hns, if_pos hg1]
      rw [hrec]
      exact ⟨⟨rfl, rfl, rfl, rfl⟩, ⟨rfl, rfl, rfl, rfl⟩, rfl,
        by show AVERROR_PATCHWELCOME < 0; decide⟩
    · have hrec : mpeg4_decode_sprite_trajectory p prevReal =
          { ret := AVERROR_PATCHWELCOME, off00 := 0, off01 := 0, off10 := 0, off11 := 0,
            del00 := 0, del01 := 0, del10 := 0, del11 := 0,
            shift0 := 16, shift1 := 16, realPoints := prevReal } := by
        simp only [mpeg4_decode_sprite_trajectory]
        rw [if_neg h1, if_neg hns, if_neg hg1, if_pos hg2]
      rw [hrec]
      exact ⟨⟨rfl, rfl, rfl, rfl⟩, ⟨rfl, rfl, rfl, rfl⟩, rfl,
        by show AVERROR_PATCHWELCOME < 0; decide⟩

/-- C3 witness: a 2-point trajectory at accuracy 3 on a 16×16 frame with
displacements (16383, 16383) and (2, 2) fails the first range guard; the
resolved context has both arrays zeroed and a negative return value. -/
theorem C3_gmc_overflow_fallback_witness :
    ((mpeg4_decode_sprite_trajectory
        { npoints := 2, accuracy := 3, divx500b413 := false, w := 16, h := 16,
          dx0 := 16383, dy0 := 16383, dx1 := 2, dy1 := 2, dx2 := 0, dy2 := 0 } 7).off00 = 0 ∧
     (mpeg4_decode_sprite_trajectory
        { npoints := 2, accuracy := 3, divx500b413 := false, w := 16, h := 16,
          dx0 := 16383, dy0 := 16383, dx1 := 2, dy1 := 2, dx2 := 0, dy2 := 0 } 7).off01 = 0 ∧
     (mpeg4_decode_sprite_trajectory
        { npoints := 2, accuracy := 3, divx500b413 := false, w := 16, h := 16,
          dx0 := 16383, dy0 := 16383, dx1 := 2, dy1 := 2, dx2 := 0, dy2 := 0 } 7).off10 = 0 ∧
     (mpeg4_decode_sprite_trajectory
        { npoints := 2, accuracy := 3, divx500b413 := false, w := 16, h := 16,
          dx0 := 16383, dy0 := 16383, dx1 := 2, dy1 := 2, dx2 := 0, dy2 := 0 } 7).off11 = 0) ∧
    ((mpeg4_decode_sprite_trajectory
        { npoints := 2, accuracy := 3, divx500b413 := false, w := 16, h := 16,
          dx0 := 16383, dy0 := 16383, dx1 := 2, dy1 := 2, dx2 := 0, dy2 := 0 } 7).del00 = 0 ∧
     (mpeg4_decode_sprite_trajectory
        { npoints := 2, accuracy := 3, divx500b413 := false, w := 16, h := 16,
          dx0 := 16383, dy0 := 16383, dx1 := 2, dy1 := 2, dx2 := 0, dy2 := 0 } 7).del01 = 0 ∧
     (mpeg4_decode_sprite_trajectory
        { npoints := 2, accuracy := 3, divx500b413 := false, w := 16, h := 16,
          dx0 := 16383, dy0 := 16383, dx1 := 2, dy1 := 2, dx2 := 0, dy2 := 0 } 7).del10 = 0 ∧
     (mpeg4_decode_sprite_trajectory
        { npoints := 2, accuracy := 3, divx500b413 := false, w := 16, h := 16,
          dx0 := 16383, dy0 := 16383, dx1 := 2, dy1 := 2, dx2 := 0, dy2 := 0 } 7).del11 = 0) ∧
    (mpeg4_decode_sprite_trajectory
        { npoints := 2, accuracy := 3, divx500b413 := false, w := 16, h := 16,
          dx0 := 16383, dy0 := 16383, dx1 := 2, dy1 := 2, dx2 := 0, dy2 := 0 } 7).ret =
      AVERROR_PATCHWELCOME ∧
    (mpeg4_decode_sprite_trajectory
        { npoints := 2, accuracy := 3, divx500b413 := false, w := 16, h := 16,
          dx0 := 16383, dy0 := 16383, dx1 := 2, dy1 := 2, dx2 := 0, dy2 := 0 } 7).ret < 0 :=
  C3_gmc_overflow_fallback _ 7 (by decide) (by decide) (by decide) (by decide)

theorem sar_add_mul_pow (off k : Int) (s : Nat) :
    sar (off + k * 2 ^ s) s = sar off s + k := by
  unfold sar
  exact Int.add_mul_ediv_right off k (by positivity)

/-- C7: when the computed deltas reduce exactly to pure unit scaling
(`sprite_delta[0][0] = sprite_delta[1][1] = a << sprite_shift[0]`, zero
off-diagonals), the trajectory resolver collapses both shifts to 0, sets
the deltas to the diagonal (a, 0; 0, a), arithmetically right-shifts the
four offsets by the former shift amounts, and marks exactly 1 real
warping point; this preserves the warp numerically (the shifted-out warp
evaluated at any macroblock coordinates equals the collapsed one), and
in the 1-warping-point case the resolved luma offset equals
`sprite_ref[0] - a * vop_ref[0]` per the case-1 formula. -/
theorem C7_sprite_simplification (p : SpriteParams) (prevReal : Nat)
    (hw : 0 < p.w) (hh : 0 < p.h)
    (hs : spriteSimplifies p (spriteRawOf p)) :
    mpeg4_decode_sprite_trajectory p prevReal =
      { ret := 0,
        off00 := sar (spriteRawOf p).off00 (spriteRawOf p).shift0,
        off01 := sar (spriteRawOf p).off01 (spriteRawOf p).shift0,
        off10 := sar (spriteRawOf p).off10 (spriteRawOf p).shift1,
        off11 := sar (spriteRawOf p).off11 (spriteRawOf p).shift1,
        del00 := spA p, del01 := 0, del10 := 0, del11 := spA p,
        shift0 := 0, shift1 := 0, realPoints := 1 } ∧
    (∀ px py : Int,
      sar ((spriteRawOf p).off00 + (spriteRawOf p).del00 * px +
           (spriteRawOf p).del01 * py) (spriteRawOf p).shift0 =
        sar (spriteRawOf p).off00 (spriteRawOf p).shift0 + spA p * px + 0 * py) ∧
    (∀ px py : Int,
      sar ((spriteRawOf p).off01 + (spriteRawOf p).del10 * px +
           (spriteRawOf p).del11 * py) (spriteRawOf p).shift0 =
        sar (spriteRawOf p).off01 (spriteRawOf p).shift0 + 0 * px + spA p * py) ∧
    (p.npoints.val = 1 →
      (mpeg4_decode_sprite_trajectory p prevReal).off00 =
        (spriteRef p 0).1 - spA p * (vopRef p 0).1 ∧
      (mpeg4_decode_sprite_trajectory p prevReal).off01 =
        (spriteRef p 0).2 - spA p * (vopRef p 0).2) := by
  have h1 : ¬ (p.w ≤ 0 ∨ p.h ≤ 0) := by omega
  obtain ⟨h00, h01, h10, h11⟩ := hs
  have hrec : mpeg4_decode_sprite_trajectory p prevReal =
      { ret := 0,
        off00 := sar (spriteRawOf p).off00 (spriteRawOf p).shift0,
        off01 := sar (spriteRawOf p).off01 (spriteRawOf p).shift0,
        off10 := sar (spriteRawOf p).off10 (spriteRawOf p).shift1,
        off11 := sar (spriteRawOf p).off11 (spriteRawOf p).shift1,
        del00 := spA p, del01 := 0, del10 := 0, del11 := spA p,
        shift0 := 0, shift1 := 0, realPoints := 1 } := by
    simp only [mpeg4_decode_sprite_trajectory]
    rw [if_neg h1, if_pos ⟨h00, h01, h10, h11⟩]
  refine ⟨hrec, ?_, ?_, ?_⟩
  · intro px py
    rw [h00, h01]
    have harg : (spriteRawOf p).off00 + spA p * 2 ^ (spriteRawOf p).shift0 * px + 0 * py =
        (spriteRawOf p).off00 + spA p * px * 2 ^ (spriteRawOf p).shift0 := by ring
    rw [harg, sar_add_mul_pow]
    ring
  · intro px py
    rw [h10, h11]
    have harg : (spriteRawOf p).off01 + 0 * px + spA p * 2 ^ (spriteRawOf p).shift0 * py =
        (spriteRawOf p).off01 + spA p * py * 2 ^ (spriteRawOf p).shift0 := by ring
    rw [harg, sar_add_mul_pow]
    ring
  · intro hn
    have h0 : ¬ p.npoints.val = 0 := by omega
    have hoff0 : (spriteRawOf p).off00 = (spriteRef p 0).1 - spA p * (vopRef p 0).1 := by
      simp only [spriteRawOf]
      rw [if_neg h0, if_pos hn]
    have hoff1 : (spriteRawOf p).off01 = (spriteRef p 0).2 - spA p * (vopRef p 0).2 := by
      simp only [spriteRawOf]
      rw [if_neg h0, if_pos hn]
    have hsh : (spriteRawOf p).shift0 = 0 := by
      simp only [spriteRawOf]
      rw [if_neg h0, if_pos hn]
    rw [hrec]
    constructor
    · show sar (spriteRawOf p).off00 (spriteRawOf p).shift0 = _
      rw [hoff0, hsh]
      exact Int.ediv_one _
    · show sar (spriteRawOf p).off01 (spriteRawOf p).shift0 = _
      rw [hoff1, hsh]
      exact Int.ediv_one _

/-- C7 witness: a single warping point (4, 6) at accuracy 0 on a 16×16
frame collapses to one real warping point, zero shifts, diagonal deltas
(2, 2), and luma offset (4, 6) = sprite_ref[0] (vop_ref[0] is the
origin). -/
theorem C7_sprite_simplification_witness :
    mpeg4_decode_sprite_trajectory
      { npoints := 1, accuracy := 0, divx500b413 := false, w := 16, h := 16,
        dx0 := 4, dy0 := 6, dx1 := 0, dy1 := 0, dx2 := 0, dy2 := 0 } 3 =
      { ret := 0, off00 := 4, off01 := 6, off10 := 2, off11 := 3,
        del00 := 2, del01 := 0, del10 := 0, del11 := 2,
        shift0 := 0, shift1 := 0, realPoints := 1 } ∧
    (mpeg4_decode_sprite_trajectory
      { npoints := 1, accuracy := 0, divx500b413 := false, w := 16, h := 16,
        dx0 := 4, dy0 := 6, dx1 := 0, dy1 := 0, dx2 := 0, dy2 := 0 } 3).off00 =
      (spriteRef
        { npoints := 1, accuracy := 0, divx500b413 := false, w := 16, h := 16,
          dx0 := 4, dy0 := 6, dx1 := 0, dy1 := 0, dx2 := 0, dy2 := 0 } 0).1 -
      spA { npoints := 1, accuracy := 0, divx500b413 := false, w := 16, h := 16,
            dx0 := 4, dy0 := 6, dx1 := 0, dy1 := 0, dx2 := 0, dy2 := 0 } *
      (vopRef
        { npoints := 1, accuracy := 0, divx500b413 := false, w := 16, h := 16,
          dx0 := 4, dy0 := 6, dx1 := 0, dy1 := 0, dx2 := 0, dy2 := 0 } 0).1 :=
  ⟨((C7_sprite_simplification
      { npoints := 1, accuracy := 0, divx500b413 := false, w := 16, h := 16,
        dx0 := 4, dy0 := 6, dx1 := 0, dy1 := 0, dx2 := 0, dy2 := 0 } 3
      (by decide) (by decide) (by decide)).1).trans (by decide),
   ((C7_sprite_simplification
      { npoints := 1, accuracy := 0, divx500b413 := false, w := 16, h := 16,
        dx0 := 4, dy0 := 6, dx1 := 0, dy1 := 0, dx2 := 0, dy2 := 0 } 3
      (by decide) (by decide) (by decide)).2.2.2 (by decide)).1⟩

end Mpeg4
